import Mathlib

/-!
Verification of the buildroom-workflow order/system/checklist lifecycle.

The definitions below are shallow embeddings of the repository's sources:

* the SQL schema (`checklist_steps`, `checklist_completions`, `orders`, ...)
  gives the record types;
* `controllers/orderController.js` (the mock controller with `TODO` stubs)
  gives the backend request handlers, embedded exactly as written — they
  consult no store and respond unconditionally;
* `routes/orders.js` gives the express route pipelines, including the fact
  that the validation-result middleware is registered with `router.use`
  *after* every route, so it only runs for requests no route matched;
* `middleware/errorHandler.js` gives the error handler;
* `components/KanbanBoard.js` gives the frontend filter, urgent-flag and
  drag-and-drop logic.

Where the repository contains no code at all for an operation (only schema
tables and TODO stubs), the definition is modelled from the specification
and says so in its doc comment.
-/

namespace Buildroom

/-- Row of the `checklist_steps` table of the schema: a step of a checklist
template, with its QA-required flag. -/
structure ChecklistStep where
  id : Nat
  template_id : Nat
  step_order : Nat
  requires_qa : Bool
  estimated_minutes : Nat
  deriving DecidableEq, Repr

/-- Row of the `checklist_completions` table of the schema: the (at most
one, by the UNIQUE(system_checklist_id, step_id) constraint) completion
record of a step on a checklist instance.  `completed_at` and
`qa_checked_at` are nullable timestamps. -/
structure ChecklistCompletion where
  id : Nat
  system_checklist_id : Nat
  step_id : Nat
  completed_by : Option Nat
  completed_at : Option Nat
  qa_checked_by : Option Nat
  qa_checked_at : Option Nat
  deriving DecidableEq, Repr

/-- Modelled from the spec: no code under src derives a step's done-ness
(the backend controllers are TODO mock stubs); spec §4.2 defines a step as
done when a completion record keyed by (checklist instance, step) exists
with a non-null completion timestamp and, if the step's `requires_qa` flag
is set, a non-null QA-check timestamp. -/
def stepDone (comps : List ChecklistCompletion) (clId : Nat)
    (s : ChecklistStep) : Bool :=
  comps.any fun c =>
    c.system_checklist_id == clId && c.step_id == s.id &&
    c.completed_at.isSome && (!s.requires_qa || c.qa_checked_at.isSome)

/-- Modelled from the spec: §4.2 counts the not-done steps of the
instantiated checklist. -/
def incompleteStepCount (steps : List ChecklistStep)
    (comps : List ChecklistCompletion) (clId : Nat) : Nat :=
  (steps.filter fun s => !stepDone comps clId s).length

/-- Modelled from the spec: §4.2 — a system's effective status is complete
iff its checklist has zero incomplete steps. -/
def systemDerivedComplete (steps : List ChecklistStep)
    (comps : List ChecklistCompletion) (clId : Nat) : Bool :=
  incompleteStepCount steps comps clId == 0

/-- A user as the frontend sees one (`useAuth().user`, `order.assigned_to`). -/
structure UIUser where
  id : Int
  first_name : String
  last_name : String
  deriving DecidableEq, Repr

/-- An order as fetched by the kanban board: exactly the fields
`KanbanBoard.js` reads.  Timestamps are epoch milliseconds, as JavaScript
`Date` arithmetic yields.  Note the fetched record carries no urgent
field: the flag exists only as a value derived after fetching. -/
structure UIOrder where
  id : Int
  woo_order_id : String
  customer_name : String
  customer_department : Option String
  status : String
  priority : Int
  assigned_to : Option UIUser
  updated_at : Int
  deriving DecidableEq, Repr

/-- `checkUrgentIssues` of `KanbanBoard.js`: the status duration
`new Date() - new Date(order.updated_at)` exceeds 48 hours in
milliseconds and the status is not `complete`; `now` is the wall clock at
the moment of the call. -/
def checkUrgentIssues (now : Int) (o : UIOrder) : Bool :=
  decide (now - o.updated_at > 48 * 60 * 60 * 1000) && !(o.status == "complete")

/-- An order after `fetchOrders` spreads the two derived flags onto it. -/
structure FlaggedOrder where
  order : UIOrder
  isAssignedToMe : Bool
  hasUrgentIssue : Bool
  deriving DecidableEq, Repr

/-- `fetchOrders` of `KanbanBoard.js`: maps over the fetched data,
deriving `isAssignedToMe` (`order.assigned_to?.id === user.id`) and
`hasUrgentIssue` (`checkUrgentIssues(order)`) at fetch time `now`. -/
def fetchOrders (now : Int) (user : UIUser) (data : List UIOrder) :
    List FlaggedOrder :=
  data.map fun o =>
    { order := o
      isAssignedToMe := o.assigned_to.map (fun u => u.id) == some user.id
      hasUrgentIssue := checkUrgentIssues now o }

/-- JavaScript `String.prototype.includes`: substring containment. -/
def jsIncludes (hay needle : String) : Bool :=
  decide (needle.toList <:+: hay.toList)

/-- The search clause of `filteredOrders` in `KanbanBoard.js`: a
case-insensitive substring match against the external reference id, the
customer name, or (when present) the department; a missing department
contributes nothing (`customer_department?.` short-circuits to a falsy
value). -/
def searchMatch (searchTerm : String) (o : FlaggedOrder) : Bool :=
  let searchLower := searchTerm.toLower
  jsIncludes o.order.woo_order_id.toLower searchLower ||
  jsIncludes o.order.customer_name.toLower searchLower ||
  (match o.order.customer_department with
   | some d => jsIncludes d.toLower searchLower
   | none => false)

/-- The filter callback of `filteredOrders` in `KanbanBoard.js`, guard by
guard: mode `assigned` demands `isAssignedToMe`, mode `unassigned`
demands a null `assigned_to`, and a non-empty search term must match;
otherwise the order passes. -/
def filterPredicate (filterMode searchTerm : String) (o : FlaggedOrder) :
    Bool :=
  if filterMode == "assigned" && !o.isAssignedToMe then false
  else if filterMode == "unassigned" && o.order.assigned_to.isSome then false
  else if searchTerm != "" then searchMatch searchTerm o
  else true

/-- `filteredOrders` of `KanbanBoard.js`. -/
def filteredOrders (filterMode searchTerm : String)
    (orders : List FlaggedOrder) : List FlaggedOrder :=
  orders.filter (filterPredicate filterMode searchTerm)

/-- `getOrdersByStatus` of `KanbanBoard.js`: the orders of one board
column. -/
def getOrdersByStatus (filterMode searchTerm : String)
    (orders : List FlaggedOrder) (status : String) : List FlaggedOrder :=
  (filteredOrders filterMode searchTerm orders).filter fun o =>
    o.order.status == status

/-- The payload a dragged order card carries (the `useDrag` item of
`OrderCard`). -/
structure DragItem where
  id : Int
  currentStatus : String
  deriving DecidableEq, Repr

/-- The status-update request `handleOrderDrop` would send
(`orderService.updateOrderStatus(orderId, newStatus)`). -/
structure StatusUpdateRequest where
  orderId : Int
  newStatus : String
  deriving DecidableEq, Repr

/-- The `drop` handler of `KanbanColumn`: only when the dragged item's
`currentStatus` differs from the column's status does it call
`onOrderDrop`, which issues the status-update request; otherwise no
request is issued at all. -/
def kanbanColumnDrop (item : DragItem) (columnStatus : String) :
    Option StatusUpdateRequest :=
  if item.currentStatus != columnStatus then
    some { orderId := item.id, newStatus := columnStatus }
  else none

/-- The test user of the frontend's mock auth service. -/
def demoUser : UIUser :=
  { id := 1, first_name := "Test", last_name := "User" }

/-- The sample order of the frontend's mock order service (its
`updated_at` here taken as epoch 0). -/
def demoOrder : UIOrder :=
  { id := 1, woo_order_id := "WC-1001", customer_name := "John Doe",
    customer_department := some "Engineering", status := "ordered",
    priority := 1, assigned_to := none, updated_at := 0 }

/-- The order record the mock `orderController.getOrderById` responds
with: the fields of its literal JSON. -/
structure OrderSummary where
  id : Int
  woo_order_id : String
  customer_name : String
  customer_email : String
  status : String
  deriving DecidableEq, Repr

/-- Mock `orderController.getOrderById` of `controllers/orderController.js`
(an explicit TODO stub): every id reads back as the same sample order,
with status `ordered`. -/
def getOrderById (id : Int) : OrderSummary :=
  { id := id, woo_order_id := "WC-1001", customer_name := "John Doe",
    customer_email := "john@example.com", status := "ordered" }

/-- Request body of POST /api/orders as the mock controller spreads it
back into its response. -/
structure CreateOrderBody where
  woo_order_id : String
  customer_name : String
  customer_email : String
  customer_department : Option String
  order_date : String
  delivery_method : String
  delivery_address : Option String
  deriving DecidableEq, Repr

/-- Response of the mock `orderController.createOrder`. -/
structure CreateOrderResult where
  httpStatus : Nat
  id : Int
  body : CreateOrderBody
  deriving DecidableEq, Repr

/-- Mock `orderController.createOrder` (an explicit TODO stub): answers
HTTP 201 with `id: 1` and the body echoed back.  It consults and writes
no store, so nothing checks the external reference id against existing
orders. -/
def createOrder (orderData : CreateOrderBody) : CreateOrderResult :=
  { httpStatus := 201, id := 1, body := orderData }

/-- The UNIQUE NOT NULL constraint on `orders.woo_order_id` in the
database schema: a table state satisfies it iff the stored external
reference ids are pairwise distinct. -/
def wooOrderIdsUnique (rows : List String) : Bool :=
  decide rows.Nodup

/-- Response shape of the mock `orderController.updateOrderStatus`. -/
structure StatusUpdateResult where
  httpStatus : Nat
  id : Int
  status : String
  deriving DecidableEq, Repr

/-- Mock `orderController.updateOrderStatus` (an explicit TODO stub): it
never reads the order's current status and unconditionally answers HTTP
200 echoing the requested target status. -/
def updateOrderStatus (id : Int) (status : String) : StatusUpdateResult :=
  { httpStatus := 200, id := id, status := status }

/-- Request body of POST /api/orders/:id/complete. -/
structure CompleteOrderBody where
  tracking_number : Option String
  delivery_confirmation : Option String
  final_notes : Option String
  deriving DecidableEq, Repr

/-- Response of the mock `orderController.completeOrder`. -/
structure CompleteOrderResult where
  httpStatus : Nat
  id : Int
  status : String
  tracking_number : Option String
  delivery_confirmation : Option String
  final_notes : Option String
  deriving DecidableEq, Repr

/-- Mock `orderController.completeOrder` (an explicit TODO stub): it
consults no store — no system or checklist state is ever inspected — and
unconditionally answers HTTP 200 with status `complete`, echoing the
request body. -/
def completeOrder (id : Int) (body : CompleteOrderBody) :
    CompleteOrderResult :=
  { httpStatus := 200, id := id, status := "complete",
    tracking_number := body.tracking_number,
    delivery_confirmation := body.delivery_confirmation,
    final_notes := body.final_notes }

/-- Response of the mock `orderController.bulkAssignOrders`. -/
structure BulkAssignResult where
  httpStatus : Nat
  updated : Nat
  order_ids : List Int
  assigned_to : Int
  deriving DecidableEq, Repr

/-- Mock `orderController.bulkAssignOrders` (an explicit TODO stub): no
store access, no existence check of the listed ids, no transaction — it
unconditionally answers HTTP 200 claiming `order_ids.length` orders were
updated. -/
def bulkAssignOrders (order_ids : List Int) (user_id : Int) :
    BulkAssignResult :=
  { httpStatus := 200, updated := order_ids.length,
    order_ids := order_ids, assigned_to := user_id }

/-- Response shape of the mock `orderController.updatePriority`. -/
structure PriorityUpdateResult where
  httpStatus : Nat
  id : Int
  priority : Int
  deriving DecidableEq, Repr

/-- Mock `orderController.updatePriority` (an explicit TODO stub): echoes
the requested priority with HTTP 200, whatever its value. -/
def updatePriority (id : Int) (priority : Int) : PriorityUpdateResult :=
  { httpStatus := 200, id := id, priority := priority }

/-- `body('priority').isInt({min: 0, max: 5})` of `routes/orders.js`: the
check the express-validator chain records for the priority field. -/
def priorityFieldValid (priority : Int) : Bool :=
  0 ≤ priority && priority ≤ 5

/-- Modelled from the spec: `middleware/auth.js` is absent from the source
tree (only its import and uses exist); §4.3 and the route's
`authorize(['manager','admin'])` admit exactly the actors whose role is in
the given list. -/
def authorize (roles : List String) (role : String) : Bool :=
  roles.contains role

/-- The errors the express-validator chain records on the request for the
priority field; `validationResult(req)` reads them. -/
def priorityValidationErrors (priority : Int) : List String :=
  if priorityFieldValid priority then []
  else ["priority must be an integer between 0 and 5"]

/-- Possible responses of the priority route. -/
inductive PriorityRouteResponse
  | forbidden
  | validationFailure (errors : List String)
  | controller (r : PriorityUpdateResult)
  deriving DecidableEq, Repr

/-- The PATCH /api/orders/:id/priority pipeline as `routes/orders.js`
wires it: `authorize(['manager','admin'])` first, then the validator
chain — which only records errors and passes control on — then
`orderController.updatePriority`, which ends the request.  The
`router.use` that reads `validationResult(req)` and would answer 400 is
registered after every route, so express reaches it only for requests no
route matched: on this matched route it never runs.  The result pairs the
recorded (and dropped) validation errors with the response actually sent;
the `validationFailure` constructor is what the check middleware would
send and is unreachable on this route. -/
def patchPriorityRoute (role : String) (id : Int) (priority : Int) :
    List String × PriorityRouteResponse :=
  if !authorize ["manager", "admin"] role then ([], .forbidden)
  else
    (priorityValidationErrors priority,
     PriorityRouteResponse.controller (updatePriority id priority))

/-- A JavaScript Error as `middleware/errorHandler.js` inspects it:
`name`, `message` (the empty string models a missing message, the only
falsy one) and the optional HTTP `status` property (an HTTP status code,
hence nonzero when present). -/
structure JsError where
  name : String
  message : String
  status : Option Nat
  deriving DecidableEq, Repr

/-- The JSON error payload sent to the caller. -/
structure ErrorResponse where
  httpStatus : Nat
  message : String
  deriving DecidableEq, Repr

/-- `middleware/errorHandler.js`, line by line: the defaults are
`err.status || 500` and `err.message || 'Internal Server Error'`; the
four recognized error names override both; one response carries the final
pair.  The first component of the result is what
`console.error('Error:', err)` wrote to the log: always the original
error object. -/
def errorHandler (err : JsError) : JsError × ErrorResponse :=
  let status := err.status.getD 500
  let message := if err.message == "" then "Internal Server Error"
    else err.message
  if err.name == "ValidationError" then
    (err, { httpStatus := 400, message := "Validation Error" })
  else if err.name == "UnauthorizedError" then
    (err, { httpStatus := 401, message := "Unauthorized" })
  else if err.name == "SequelizeValidationError" then
    (err, { httpStatus := 400, message := "Database Validation Error" })
  else if err.name == "SequelizeUniqueConstraintError" then
    (err, { httpStatus := 409, message := "Duplicate Entry" })
  else (err, { httpStatus := status, message := message })

/-- The catch branch of the mock `orderController.getOrders`:
`res.status(500).json({ error: error.message })` — the caught error's
message, verbatim, with HTTP 500. -/
def getOrdersCatch (error : JsError) : ErrorResponse :=
  { httpStatus := 500, message := error.message }

/-- A QA-required checklist step (of template 4, checklist instance 3)
with no completion record, for the concrete inputs below. -/
def demoQaStep : ChecklistStep :=
  { id := 21, template_id := 4, step_order := 2, requires_qa := true,
    estimated_minutes := 5 }

/-- A storage failure whose name none of the recognized branches match. -/
def demoStorageFailure : JsError :=
  { name := "SequelizeConnectionRefusedError",
    message := "connect ECONNREFUSED 127.0.0.1:5432", status := none }

/-- An unexpected programming error with a message and a status. -/
def demoTypeError : JsError :=
  { name := "TypeError", message := "x is not a function",
    status := some 500 }

end Buildroom

namespace Buildroom

/-- Claim C2: a system's derived status is complete if and only if every
step of its instantiated checklist has a completion record (keyed by the
checklist instance and the step) with a non-null completion timestamp and,
whenever the step's `requires_qa` flag is set, a non-null QA-check
timestamp. -/
theorem C2_derived_complete_iff (steps : List ChecklistStep)
    (comps : List ChecklistCompletion) (clId : Nat) :
    systemDerivedComplete steps comps clId = true ↔
      ∀ s ∈ steps, ∃ c ∈ comps,
        c.system_checklist_id = clId ∧ c.step_id = s.id ∧
        c.completed_at ≠ none ∧
        (s.requires_qa = true → c.qa_checked_at ≠ none) := by
  unfold systemDerivedComplete incompleteStepCount stepDone
  simp [List.length_eq_zero, List.filter_eq_nil_iff, List.any_eq_true,
    Option.isSome_iff_ne_none, and_assoc]

/-- Claim C7: the urgent flag the board attaches to an order is a pure
function of the wall clock at fetch time and the order's own state — it
equals `checkUrgentIssues now` of the fetched record, which stores no such
flag — and it is true exactly when the order's status is not `complete`
and more than 48 hours have elapsed since `updated_at`. -/
theorem C7_urgent_flag_derived (now : Int) (user : UIUser)
    (data : List UIOrder) (fo : FlaggedOrder)
    (hmem : fo ∈ fetchOrders now user data) :
    fo.hasUrgentIssue = checkUrgentIssues now fo.order ∧
    (fo.hasUrgentIssue = true ↔
      fo.order.status ≠ "complete" ∧
        48 * 60 * 60 * 1000 < now - fo.order.updated_at) := by
  unfold fetchOrders at hmem
  rw [List.mem_map] at hmem
  obtain ⟨o, _, rfl⟩ := hmem
  refine ⟨rfl, ?_⟩
  simp only [checkUrgentIssues, Bool.and_eq_true, decide_eq_true_eq,
    Bool.not_eq_true', beq_eq_false_iff_ne, ne_eq, gt_iff_lt]
  exact and_comm

/-- Witness for C7 at the mock service's sample order, fetched 48 hours
and one millisecond after its last update. -/
theorem C7_urgent_flag_derived_witness :
    (({ order := demoOrder, isAssignedToMe := false, hasUrgentIssue := true } :
        FlaggedOrder) ∈ fetchOrders 172800001 demoUser [demoOrder]) ∧
    (({ order := demoOrder, isAssignedToMe := false, hasUrgentIssue := true } :
        FlaggedOrder).hasUrgentIssue = true ↔
      demoOrder.status ≠ "complete" ∧
        48 * 60 * 60 * 1000 < 172800001 - demoOrder.updated_at) :=
  ⟨by decide,
   (C7_urgent_flag_derived 172800001 demoUser [demoOrder]
      { order := demoOrder, isAssignedToMe := false, hasUrgentIssue := true }
      (by decide)).2⟩

/-- The filter callback passes an order iff the assignment guard for mode
`assigned`, the one for mode `unassigned`, and the search clause all
hold. -/
theorem filterPredicate_eq_true_iff (fm st : String) (o : FlaggedOrder) :
    filterPredicate fm st o = true ↔
      (fm = "assigned" → o.isAssignedToMe = true) ∧
      (fm = "unassigned" → o.order.assigned_to = none) ∧
      (st ≠ "" → searchMatch st o = true) := by
  unfold filterPredicate
  by_cases h1 : fm = "assigned" <;> by_cases h2 : fm = "unassigned" <;>
    cases h3 : o.isAssignedToMe <;> by_cases h4 : st = "" <;>
      simp_all [Option.isSome_iff_ne_none]

/-- Claim C8: the board column for a status contains exactly the fetched
orders satisfying the conjunction of the status filter, the assignment
filter (including the explicit unassigned predicate) and the
case-insensitive substring search over external reference id, customer
name and department; the read path is a pure projection of the order
list and mutates nothing. -/
theorem C8_column_membership (filterMode searchTerm status : String)
    (orders : List FlaggedOrder) (o : FlaggedOrder) :
    o ∈ getOrdersByStatus filterMode searchTerm orders status ↔
      o ∈ orders ∧ o.order.status = status ∧
      (filterMode = "assigned" → o.isAssignedToMe = true) ∧
      (filterMode = "unassigned" → o.order.assigned_to = none) ∧
      (searchTerm ≠ "" →
        (jsIncludes o.order.woo_order_id.toLower searchTerm.toLower = true ∨
         jsIncludes o.order.customer_name.toLower searchTerm.toLower = true ∨
         (∃ d, o.order.customer_department = some d ∧
            jsIncludes d.toLower searchTerm.toLower = true))) := by
  unfold getOrdersByStatus filteredOrders
  rw [List.mem_filter, List.mem_filter, filterPredicate_eq_true_iff]
  have hsearch : searchMatch searchTerm o = true ↔
      (jsIncludes o.order.woo_order_id.toLower searchTerm.toLower = true ∨
       jsIncludes o.order.customer_name.toLower searchTerm.toLower = true ∨
       (∃ d, o.order.customer_department = some d ∧
          jsIncludes d.toLower searchTerm.toLower = true)) := by
    unfold searchMatch
    cases hd : o.order.customer_department <;> simp [hd, or_assoc]
  rw [hsearch]
  simp [beq_iff_eq]
  tauto

/-- Claim C10: dropping an order card on the column showing its current
status issues no status-update request at all — the no-op transition is
suppressed client-side, so the server's no-op rejection is never
exercised by the board. -/
theorem C10_noop_drop_suppressed (item : DragItem) (columnStatus : String)
    (h : item.currentStatus = columnStatus) :
    kanbanColumnDrop item columnStatus = none := by
  unfold kanbanColumnDrop
  simp [h]

/-- Claim C1 (code bug): a QA-required step with no completion record
leaves the checklist's system not derived-complete, yet the deployed
`completeOrder` handler — a TODO stub consulting no store — answers the
mark-order-complete request with HTTP 200 and status `complete` instead
of a PreconditionFailed error naming the blocking system ids. -/
theorem C1_completeOrder_stub_succeeds_on_incomplete_system :
    systemDerivedComplete [demoQaStep] [] 3 = false ∧
    completeOrder 1
        { tracking_number := none, delivery_confirmation := none,
          final_notes := none } =
      { httpStatus := 200, id := 1, status := "complete",
        tracking_number := none, delivery_confirmation := none,
        final_notes := none } :=
  ⟨by decide, rfl⟩

/-- Claim C3 (code bug): the mock read path reports order 1 with status
`ordered`, and the deployed `updateOrderStatus` handler — which never
reads the current status — answers the no-op request targeting `ordered`
with HTTP 200 instead of a no-change/PreconditionFailed error; indeed it
answers HTTP 200 for every id and target. -/
theorem C3_updateOrderStatus_stub_accepts_noop :
    (getOrderById 1).status = "ordered" ∧
    updateOrderStatus 1 "ordered" =
      { httpStatus := 200, id := 1, status := "ordered" } ∧
    (∀ (id : Int) (target : String),
      (updateOrderStatus id target).httpStatus = 200) :=
  ⟨rfl, rfl, fun _ _ => rfl⟩

/-- Claim C4 (code bug): the deployed `createOrder` handler answers HTTP
201 with id 1 for every request — in particular a second call carrying an
already-used external reference id also reports a created order, with no
DuplicateExternalReference conflict — while the code's own schema forbids
two stored orders sharing that reference. -/
theorem C4_createOrder_stub_never_conflicts :
    (∀ b : CreateOrderBody,
      (createOrder b).httpStatus = 201 ∧ (createOrder b).id = 1) ∧
    wooOrderIdsUnique ["WC-1001", "WC-1001"] = false :=
  ⟨fun _ => ⟨rfl, rfl⟩, by decide⟩

/-- Claim C5 (code bug): bulk-assigning `[1, 999999, 3]` — where no order
999999 exists in any store, the handler consulting none at all — answers
HTTP 200 and reports all three orders updated, instead of failing the
whole batch; no transactional all-or-nothing behaviour exists in the
code. -/
theorem C5_bulkAssign_stub_reports_success_for_missing_id :
    bulkAssignOrders [1, 999999, 3] 42 =
      { httpStatus := 200, updated := 3, order_ids := [1, 999999, 3],
        assigned_to := 42 } :=
  rfl

/-- Claim C6 (code bug): priority 7 is outside [0,5] and the validator
chain records an error for it, yet the PATCH priority route run by a
manager still executes `updatePriority` and answers HTTP 200 echoing
priority 7 — the validation-check middleware, registered after every
route, never runs for the matched route, so out-of-range values are
never rejected. -/
theorem C6_priority_validation_never_blocks :
    priorityFieldValid 7 = false ∧
    patchPriorityRoute "manager" 1 7 =
      (["priority must be an integer between 0 and 5"],
       PriorityRouteResponse.controller
         { httpStatus := 200, id := 1, priority := 7 }) :=
  ⟨by decide, by decide⟩

/-- Claim C9 (counterexample): on an unexpected storage failure the error
handler's response reproduces the original error's message verbatim
(with HTTP 500), and so does the controller's catch branch — refuting
the claim that the caller-visible message never reproduces the original
cause. -/
theorem C9_counterexample_message_exposed :
    (errorHandler demoStorageFailure).2.message =
        demoStorageFailure.message ∧
    (errorHandler demoStorageFailure).2.httpStatus = 500 ∧
    getOrdersCatch demoStorageFailure =
      { httpStatus := 500, message := demoStorageFailure.message } :=
  ⟨by decide, by decide, rfl⟩

/-- Claim C9 (amended): every failure logs the original error object; an
error whose name is none of the four recognized kinds is returned with
status `err.status` defaulting to 500 and a message that reproduces the
original message verbatim, falling back to `Internal Server Error` only
when the original message is empty. -/
theorem C9_amended_unexpected_error_passthrough (err : JsError)
    (h1 : err.name ≠ "ValidationError")
    (h2 : err.name ≠ "UnauthorizedError")
    (h3 : err.name ≠ "SequelizeValidationError")
    (h4 : err.name ≠ "SequelizeUniqueConstraintError") :
    (errorHandler err).1 = err ∧
    (errorHandler err).2.httpStatus = err.status.getD 500 ∧
    (errorHandler err).2.message =
      (if err.message = "" then "Internal Server Error"
       else err.message) := by
  unfold errorHandler
  simp [beq_iff_eq, h1, h2, h3, h4]

/-- Witness for the amended C9 at a concrete unexpected error. -/
theorem C9_amended_unexpected_error_passthrough_witness :
    demoTypeError.name ≠ "ValidationError" ∧
    demoTypeError.name ≠ "UnauthorizedError" ∧
    demoTypeError.name ≠ "SequelizeValidationError" ∧
    demoTypeError.name ≠ "SequelizeUniqueConstraintError" ∧
    ((errorHandler demoTypeError).1 = demoTypeError ∧
     (errorHandler demoTypeError).2.httpStatus =
        demoTypeError.status.getD 500 ∧
     (errorHandler demoTypeError).2.message =
       (if demoTypeError.message = "" then "Internal Server Error"
        else demoTypeError.message)) :=
  ⟨by decide, by decide, by decide, by decide,
   C9_amended_unexpected_error_passthrough demoTypeError
     (by decide) (by decide) (by decide) (by decide)⟩

/-- Witness for C10: dropping a card whose status is `ordered` back onto
the `ordered` column. -/
theorem C10_noop_drop_suppressed_witness :
    (({ id := 1, currentStatus := "ordered" } : DragItem).currentStatus
        = "ordered") ∧
    kanbanColumnDrop { id := 1, currentStatus := "ordered" } "ordered"
        = none :=
  ⟨rfl, C10_noop_drop_suppressed { id := 1, currentStatus := "ordered" }
    "ordered" rfl⟩

end Buildroom
